import Mathlib

/-!
Verification of the steam-trap telemetry classification-and-aggregation engine.

The definitions below are a shallow embedding of the repository's core logic:

* `getTrapStatus`   — the status classifier cascade
  (src/src/components/SettingsModal.tsx, `getTrapStatus`);
* `calculateKPIs`   — the fleet KPI aggregator
  (src/src/components/SettingsModal.tsx, `calculateKPIs`);
* `getFilteredDevices` — the tier filter engine
  (src/src/components/SettingsModal.tsx, `getFilteredDevices`);
* `isSteamTrapDevice`, `fineSteamTrapFilter`, `loadDevicesFinal`
  — the device identification pipeline (Dashboard component, `loadDevices`).

Modelling conventions:

* JavaScript sensor values of TypeScript type `string | number | null` are
  embedded as `JsVal`.  Numeric values are modelled as integers: every numeric
  constant appearing in the engine (status codes 1/3/5/6/9, thresholds 100/20,
  energy-loss units 10/15) is an integer, and the classifier compares and
  subtracts values exactly.  Fractional KPI results (means, percentages) are
  modelled in `ℚ`.
* JavaScript truthiness is modelled where the source relies on it
  (`truthyNum`, `errorFalsy`).
* `String.prototype.toLowerCase` / `includes` are modelled as ASCII lowering
  and substring containment (`jsToLower`, `strIncludes`); all needles used by
  the engine are ASCII.
* `parseInt` is modelled with its decimal behaviour (`jsParseInt`): leading
  whitespace, optional sign, then a maximal digit prefix; `NaN` is `none`.
  The hexadecimal `0x` radix prefix is not modelled — no status code uses it.
* Display-only data (colours, icons and descriptions are kept since the
  classifier returns them; timestamps and `toFixed(1)` formatting are not,
  as no modelled logic reads them).
-/

/-- A JavaScript value of TypeScript type `string | number | null`, as stored
in a `SensorDataPoint.value` field. -/
inductive JsVal where
  | str : String → JsVal
  | num : Int → JsVal
  | null : JsVal
deriving DecidableEq

/-- ASCII lowering, modelling `String.prototype.toLowerCase` on the ASCII
strings the engine manipulates. -/
def jsToLower (s : String) : String := String.mk (s.data.map Char.toLower)

/-- Boolean prefix test on character lists. -/
def isPrefixList : List Char → List Char → Bool
  | [], _ => true
  | _ :: _, [] => false
  | a :: as, b :: bs => a == b && isPrefixList as bs

/-- Boolean substring containment on character lists (needle second). -/
def listIncludes : List Char → List Char → Bool
  | [], needle => needle.isEmpty
  | c :: t, needle => isPrefixList needle (c :: t) || listIncludes t needle

/-- `hay.includes(needle)`, modelling `String.prototype.includes`. -/
def strIncludes (hay needle : String) : Bool := listIncludes hay.data needle.data

/-- Maximal decimal-digit prefix accumulator. -/
def parseDigitsAux : List Char → Nat → Nat
  | [], acc => acc
  | c :: cs, acc => parseDigitsAux cs (acc * 10 + (c.toNat - 48))

/-- Parses a maximal nonempty digit prefix; `none` when the first character is
not a digit (parseInt would yield `NaN`). -/
def parseDigits (cs : List Char) : Option Nat :=
  match cs.takeWhile Char.isDigit with
  | [] => none
  | ds => some (parseDigitsAux ds 0)

/-- `parseInt(s)` in its decimal behaviour: leading whitespace, optional sign,
maximal digit prefix; `none` models `NaN`. -/
def jsParseInt (s : String) : Option Int :=
  match s.data.dropWhile Char.isWhitespace with
  | '-' :: rest => (parseDigits rest).map fun n => -(n : Int)
  | '+' :: rest => (parseDigits rest).map fun n => (n : Int)
  | rest => (parseDigits rest).map fun n => (n : Int)

/-- `parseInt(String(value))` as applied by the classifier to a sensor value.
`String` of an integer is its decimal rendering, which `parseInt` maps back to
the same integer; `parseInt(String(null)) = parseInt("null")` is `NaN`. -/
def valParseInt : JsVal → Option Int
  | JsVal.str s => jsParseInt s
  | JsVal.num n => some n
  | JsVal.null => none

/-- `String(value).toLowerCase().includes(needle)` for a status-name needle.
The decimal rendering of an integer contains only digits and a sign, hence
never a status name; `String(null) = "null"` contains none either. -/
def valTextIncludes : JsVal → String → Bool
  | JsVal.str s, needle => strIncludes (jsToLower s) (jsToLower needle)
  | JsVal.num _, _ => false
  | JsVal.null, _ => false

/-- The combined guard `x?.value && typeof x.value === 'number'` followed by
the numeric read: a `null` value and the number `0` are falsy, a string value
fails the `typeof` test. -/
def truthyNum : JsVal → Option Int
  | JsVal.num n => if n = 0 then none else some n
  | JsVal.str _ => none
  | JsVal.null => none

/-- One entry of `SensorDataPoint[]`: sensor label and value.  The observation
timestamp field of the TypeScript interface is never read by the classifier or
the aggregator and is omitted. -/
structure SensorDataPoint where
  sensor : String
  value : JsVal
deriving DecidableEq

/-- The record type returned by `getTrapStatus`. -/
structure TrapStatus where
  status : String
  statusCode : Int
  color : String
  description : String
  icon : String
deriving DecidableEq

/-- One value of the `statusMapping` table in `getTrapStatus`. -/
structure StatusInfo where
  code : Int
  color : String
  description : String
  icon : String
deriving DecidableEq

def normalInfo : StatusInfo :=
  ⟨1, "text-green-600 bg-green-100",
   "Steam trap is operating normally with proper condensate discharge and no steam loss.",
   "✓"⟩

def heavyFloodingInfo : StatusInfo :=
  ⟨3, "text-orange-600 bg-orange-100",
   "Steam trap is experiencing heavy flooding. Condensate is not being discharged properly.",
   "⚠"⟩

def chokingInfo : StatusInfo :=
  ⟨6, "text-red-600 bg-red-100",
   "Steam trap is choking. Flow is restricted and requires immediate attention.",
   "⚠"⟩

def heavyLeakInfo : StatusInfo :=
  ⟨9, "text-red-600 bg-red-100",
   "Steam trap has a heavy leak. Steam is being lost and energy efficiency is compromised.",
   "⚠"⟩

def valveClosedInfo : StatusInfo :=
  ⟨5, "text-gray-600 bg-gray-100",
   "Valve is closed. No flow is detected through the steam trap.",
   "⚠"⟩

/-- The `statusMapping` table of `getTrapStatus`, in object-literal insertion
order (the order `Object.entries` iterates it). -/
def statusMapping : List (String × StatusInfo) :=
  [("Normal", normalInfo),
   ("Heavy Flooding", heavyFloodingInfo),
   ("Choking", chokingInfo),
   ("Heavy Leak", heavyLeakInfo),
   ("Valve Closed", valveClosedInfo)]

/-- Builds the record `getTrapStatus` returns from a `statusMapping` entry. -/
def mkTrapStatus (name : String) (info : StatusInfo) : TrapStatus :=
  ⟨name, info.code, info.color, info.description, info.icon⟩

/-- Predicate of the `find` locating a status sensor: the label contains
"status", "condition" or "trap" case-insensitively. -/
def isStatusSensor (d : SensorDataPoint) : Bool :=
  strIncludes (jsToLower d.sensor) "status" ||
  strIncludes (jsToLower d.sensor) "condition" ||
  strIncludes (jsToLower d.sensor) "trap"

/-- Predicate of the `find` locating an inlet-temperature sensor. -/
def isInletTempSensor (d : SensorDataPoint) : Bool :=
  strIncludes (jsToLower d.sensor) "inlet" && strIncludes (jsToLower d.sensor) "temp"

/-- Predicate of the `find` locating an outlet-temperature sensor. -/
def isOutletTempSensor (d : SensorDataPoint) : Bool :=
  strIncludes (jsToLower d.sensor) "outlet" && strIncludes (jsToLower d.sensor) "temp"

def findStatusSensor (sensorData : List SensorDataPoint) : Option SensorDataPoint :=
  sensorData.find? isStatusSensor

def findInletTemp (sensorData : List SensorDataPoint) : Option SensorDataPoint :=
  sensorData.find? isInletTempSensor

def findOutletTemp (sensorData : List SensorDataPoint) : Option SensorDataPoint :=
  sensorData.find? isOutletTempSensor

/-- The record returned by the final fallback of `getTrapStatus` ("Default to
Normal status if no specific condition is detected"). -/
def defaultTrapStatus : TrapStatus :=
  ⟨"Normal", 1, "text-green-600 bg-green-100",
   "Steam trap appears to be operating normally.", "✓"⟩

/-- The temperature-difference fallback of `getTrapStatus`: when the first
inlet-temperature and outlet-temperature readings both carry truthy numeric
values, a difference above 100 yields Normal and one below 20 yields Heavy
Flooding (both built by spreading the `statusMapping` entry, which always
exists); otherwise the default applies. -/
def trapStatusFromTemps (sensorData : List SensorDataPoint) : TrapStatus :=
  match findInletTemp sensorData, findOutletTemp sensorData with
  | some inletTemp, some outletTemp =>
    match truthyNum inletTemp.value, truthyNum outletTemp.value with
    | some inletVal, some outletVal =>
      let tempDiff := inletVal - outletVal
      if tempDiff > 100 then mkTrapStatus "Normal" normalInfo
      else if tempDiff < 20 then mkTrapStatus "Heavy Flooding" heavyFloodingInfo
      else defaultTrapStatus
    | _, _ => defaultTrapStatus
  | _, _ => defaultTrapStatus

/-- The status classifier `getTrapStatus` of SettingsModal.tsx.  Cascade:
locate the first status/condition/trap-labelled reading; if it has a non-null
value, try the status-code match and then the status-name substring match over
`statusMapping`; otherwise fall through to the temperature heuristic and
finally the Normal default. -/
def getTrapStatus (sensorData : List SensorDataPoint) : TrapStatus :=
  match findStatusSensor sensorData with
  | some statusSensor =>
    if statusSensor.value ≠ JsVal.null then
      match statusMapping.find? (fun p => valParseInt statusSensor.value == some p.2.code) with
      | some p => mkTrapStatus p.1 p.2
      | none =>
        match statusMapping.find? (fun p => valTextIncludes statusSensor.value p.1) with
        | some p => mkTrapStatus p.1 p.2
        | none => trapStatusFromTemps sensorData
    else trapStatusFromTemps sensorData
  | none => trapStatusFromTemps sensorData

/-- The four severity tiers used by the aggregator and the filter engine. -/
inductive Tier where
  | normal
  | warning
  | critical
  | offline
deriving DecidableEq

/-- The string a tier is denoted by in the `statusFilter` state. -/
def tierName : Tier → String
  | Tier.normal => "normal"
  | Tier.warning => "warning"
  | Tier.critical => "critical"
  | Tier.offline => "offline"

/-- The `switch (status.statusCode)` of `calculateKPIs`: code 1 is normal,
3 and 5 warning, 6 and 9 critical, and the default branch counts any other
code as warning. -/
def statusCodeTier (code : Int) : Tier :=
  if code = 1 then Tier.normal
  else if code = 3 ∨ code = 5 then Tier.warning
  else if code = 6 ∨ code = 9 then Tier.critical
  else Tier.warning

/-- One value of the `deviceRows` record: the per-device snapshot.  The
`device`, `metadata` and `isLoading` fields of the TypeScript interface are
never read by the aggregator or the filter and are omitted; `lastUpdated` is
kept only as its truthiness (a `Date` is truthy, `null` is falsy). -/
structure DeviceRowData where
  sensorData : List SensorDataPoint
  error : Option String
  lastUpdated : Bool
deriving DecidableEq

/-- JavaScript `!row.error`: a `null` error and the empty string are falsy. -/
def errorFalsy : Option String → Bool
  | none => true
  | some s => s == ""

/-- The per-row tier the aggregator buckets a snapshot into: rows with a
nonempty reading list go through the classifier and the status-code switch,
rows with an empty reading list are counted offline. -/
def rowStatusTier (row : DeviceRowData) : Tier :=
  if row.sensorData.length > 0 then
    statusCodeTier (getTrapStatus row.sensorData).statusCode
  else Tier.offline

/-- The energy-loss contribution of one row: the critical switch branch adds
`statusCode === 9 ? 15 : 10` kW, every other branch adds nothing. -/
def rowEnergyLoss (row : DeviceRowData) : Int :=
  if row.sensorData.length > 0 then
    let code := (getTrapStatus row.sensorData).statusCode
    if code = 6 ∨ code = 9 then (if code = 9 then 15 else 10) else 0
  else 0

/-- The temperature-differential contribution of one row: inside the
nonempty-readings branch, when the first inlet-temperature and first
outlet-temperature readings both carry truthy numeric values, the difference
is accumulated and the row counted in the divisor. -/
def rowTempDiff (row : DeviceRowData) : Option Int :=
  if row.sensorData.length > 0 then
    match findInletTemp row.sensorData, findOutletTemp row.sensorData with
    | some inletTemp, some outletTemp =>
      match truthyNum inletTemp.value, truthyNum outletTemp.value with
      | some a, some b => some (a - b)
      | _, _ => none
    | _, _ => none
  else none

/-- The `statusCounts` object of `calculateKPIs`. -/
structure StatusCounts where
  normal : Nat
  warning : Nat
  critical : Nat
  offline : Nat
deriving DecidableEq

/-- Number of rows the aggregator buckets into tier `t`.  The source's
`forEach` increments exactly one of the four counters per row. -/
def countTier (t : Tier) (rows : List DeviceRowData) : Nat :=
  rows.countP fun row => decide (rowStatusTier row = t)

/-- Selects the counter of tier `t` from a `statusCounts` record. -/
def tierCount (t : Tier) (counts : StatusCounts) : Nat :=
  match t with
  | Tier.normal => counts.normal
  | Tier.warning => counts.warning
  | Tier.critical => counts.critical
  | Tier.offline => counts.offline

/-- A device record as delivered by `getDeviceDetails`.  `devTypeID` is
optional to model the source's defensive `device.devTypeID?.` chaining. -/
structure DeviceDetail where
  devID : String
  devTypeID : Option String
deriving DecidableEq

/-- The record returned by `calculateKPIs`.  The source formats `efficiency`,
`uptime`, `totalEnergyLoss` and `avgTempDifferential` with `toFixed(1)` for
display and stamps `lastUpdated = new Date()`; the underlying numbers are
modelled, the formatting and the timestamp are not. -/
structure FleetKPIs where
  totalDevices : Nat
  onlineDevices : Nat
  efficiency : ℚ
  uptime : ℚ
  statusCounts : StatusCounts
  totalEnergyLoss : Int
  avgTempDifferential : ℚ
deriving DecidableEq

/-- The KPI aggregator `calculateKPIs` of SettingsModal.tsx.  `devices` is the
current device list and `rows` the values of the `deviceRows` record. -/
def calculateKPIs (devices : List DeviceDetail) (rows : List DeviceRowData) : FleetKPIs :=
  let totalDevices := devices.length
  let onlineDevices := (rows.filter fun row => errorFalsy row.error && row.lastUpdated).length
  let statusCounts : StatusCounts :=
    ⟨countTier Tier.normal rows, countTier Tier.warning rows,
     countTier Tier.critical rows, countTier Tier.offline rows⟩
  let totalEnergyLoss := (rows.map rowEnergyLoss).sum
  let tempDiffs := rows.filterMap rowTempDiff
  let avgTempDifferential : ℚ :=
    if tempDiffs.length > 0 then ((tempDiffs.sum : ℚ) / (tempDiffs.length : ℚ)) else 0
  let efficiency : ℚ :=
    if totalDevices > 0 then ((statusCounts.normal : ℚ) / (totalDevices : ℚ)) * 100 else 0
  let uptime : ℚ :=
    if totalDevices > 0 then ((onlineDevices : ℚ) / (totalDevices : ℚ)) * 100 else 0
  ⟨totalDevices, onlineDevices, efficiency, uptime, statusCounts,
   totalEnergyLoss, avgTempDifferential⟩

/-- The per-device test of `getFilteredDevices`: a missing row or an empty
reading list matches exactly the offline filter; otherwise the classifier runs
and the switch on `statusFilter` compares status codes (the default branch of
that switch keeps the device). -/
def filterMatchesRow (statusFilter : String) (rowData : Option DeviceRowData) : Bool :=
  match rowData with
  | none => statusFilter == "offline"
  | some row =>
    if row.sensorData.length == 0 then statusFilter == "offline"
    else
      let status := getTrapStatus row.sensorData
      if statusFilter == "normal" then status.statusCode == 1
      else if statusFilter == "warning" then status.statusCode == 3 || status.statusCode == 5
      else if statusFilter == "critical" then status.statusCode == 6 || status.statusCode == 9
      else if statusFilter == "offline" then false
      else true

/-- The filter engine `getFilteredDevices` of SettingsModal.tsx, with the
`deviceRows` record modelled as a lookup by device id. -/
def getFilteredDevices (statusFilter : String) (devices : List DeviceDetail)
    (deviceRows : String → Option DeviceRowData) : List DeviceDetail :=
  if statusFilter == "all" then devices
  else devices.filter fun device => filterMatchesRow statusFilter (deviceRows device.devID)

/-- Device metadata as consumed by the identification pipeline; the fields the
pipeline never reads (sensors, location, enrollment timestamp, human name used
only for display) are omitted.  The type fields are optional to model the
source's `?.` chaining. -/
structure DeviceMetadata where
  devID : String
  devTypeID : Option String
  devTypeName : Option String
deriving DecidableEq

/-- `field?.toLowerCase().includes(needle)`: `undefined` short-circuits to a
falsy result. -/
def optLowerIncludes : Option String → String → Bool
  | some s, needle => strIncludes (jsToLower s) needle
  | none, _ => false

/-- The coarse device filter of `Dashboard.loadDevices`, applied to the raw
`getDeviceDetails` result. -/
def isSteamTrapDevice (device : DeviceDetail) : Bool :=
  device.devTypeID == some "STEAM_TRAP3" ||
  optLowerIncludes device.devTypeID "steamtrap" ||
  optLowerIncludes device.devTypeID "steam"

/-- The fine device filter of `Dashboard.loadDevices`, applied to each
device's metadata after it arrives. -/
def fineSteamTrapFilter (metadata : DeviceMetadata) : Bool :=
  optLowerIncludes metadata.devTypeName "steam trap" ||
  optLowerIncludes metadata.devTypeName "steamtrap" ||
  metadata.devTypeID == some "STEAM_TRAP3" ||
  optLowerIncludes metadata.devTypeID "steamtrap"

/-- The device list `Dashboard.loadDevices` finally installs: the coarse
filter runs over the raw list, metadata is fetched per surviving device (a
failed fetch yields no metadata and the device is skipped), and for each
device whose metadata passes the fine filter the source pushes
`steamTrapDevices.find(d => d.devID === result.deviceId)`. -/
def loadDevicesFinal (deviceDetails : List DeviceDetail)
    (getMeta : String → Option DeviceMetadata) : List DeviceDetail :=
  let steamTrapDevices := deviceDetails.filter isSteamTrapDevice
  steamTrapDevices.filterMap fun dev =>
    match getMeta dev.devID with
    | some metadata =>
      if fineSteamTrapFilter metadata then
        steamTrapDevices.find? fun d => d.devID == dev.devID
      else none
    | none => none

/-- The status table as the specification states it: name, code and tier of
each health state. -/
def healthTable : List (String × Int × Tier) :=
  [("Normal", 1, Tier.normal),
   ("Heavy Flooding", 3, Tier.warning),
   ("Valve Closed", 5, Tier.warning),
   ("Choking", 6, Tier.critical),
   ("Heavy Leak", 9, Tier.critical)]

/-- The five name/code pairs a classification can carry. -/
def statusPairs : List (String × Int) :=
  [("Normal", 1), ("Heavy Flooding", 3), ("Choking", 6),
   ("Heavy Leak", 9), ("Valve Closed", 5)]

/-- Whether a sensor value is numeric. -/
def JsVal.isNum : JsVal → Bool
  | JsVal.num _ => true
  | JsVal.str _ => false
  | JsVal.null => false

/-- Claim C6's qualification, in the claim's words: the snapshot contains a
numeric-valued inlet-temperature reading and a numeric-valued
outlet-temperature reading. -/
def hasNumericInletOutlet (row : DeviceRowData) : Bool :=
  (row.sensorData.any fun d => isInletTempSensor d && d.value.isNum) &&
  (row.sensorData.any fun d => isOutletTempSensor d && d.value.isNum)

/-- Numeric value of a located reading, defaulting to 0 when absent. -/
def numericValOf : Option SensorDataPoint → Int
  | some d => match d.value with
    | JsVal.num n => n
    | JsVal.str _ => 0
    | JsVal.null => 0
  | none => 0

/-- The per-row differential of claim C6's wording: the value of the first
numeric-valued inlet-temperature reading minus the value of the first
numeric-valued outlet-temperature reading. -/
def claimRowDiff (row : DeviceRowData) : Int :=
  numericValOf (row.sensorData.find? fun d => isInletTempSensor d && d.value.isNum) -
  numericValOf (row.sensorData.find? fun d => isOutletTempSensor d && d.value.isNum)

/-- The average temperature differential as claim C6 states it: the
arithmetic mean of inlet minus outlet over exactly the rows qualifying per
`hasNumericInletOutlet`, and 0 when no row qualifies. -/
def claimAvgTempDiff (rows : List DeviceRowData) : ℚ :=
  let qual := rows.filter hasNumericInletOutlet
  if qual.length = 0 then 0 else ((qual.map claimRowDiff).sum : ℚ) / (qual.length : ℚ)

/-- The amended qualification for claim C6: the row's first inlet-temperature
reading and first outlet-temperature reading both carry truthy (nonzero)
numeric values. -/
def amendedQualifies (row : DeviceRowData) : Bool :=
  (match findInletTemp row.sensorData with
   | some d => (truthyNum d.value).isSome
   | none => false) &&
  (match findOutletTemp row.sensorData with
   | some d => (truthyNum d.value).isSome
   | none => false)

/-- The amended per-row differential for claim C6: first inlet value minus
first outlet value. -/
def amendedRowDiff (row : DeviceRowData) : Int :=
  (match findInletTemp row.sensorData with
   | some d => (truthyNum d.value).getD 0
   | none => 0) -
  (match findOutletTemp row.sensorData with
   | some d => (truthyNum d.value).getD 0
   | none => 0)

/-- The average temperature differential as amended: the arithmetic mean over
exactly the rows qualifying per `amendedQualifies`, 0 when none qualifies. -/
def amendedAvgTempDiff (rows : List DeviceRowData) : ℚ :=
  let qual := rows.filter amendedQualifies
  if qual.length = 0 then 0 else ((qual.map amendedRowDiff).sum : ℚ) / (qual.length : ℚ)

/-- Rules 1 and 2 of the cascade fail: any status sensor found has a null
value or matches neither the code rule nor the name rule. -/
def statusRuleMisses (rs : List SensorDataPoint) : Bool :=
  match findStatusSensor rs with
  | none => true
  | some s =>
    s.value == JsVal.null ||
    ((statusMapping.find? fun p => valParseInt s.value == some p.2.code).isNone &&
     (statusMapping.find? fun p => valTextIncludes s.value p.1).isNone)

/-- Rule 3 of the cascade fails: the temperature heuristic either lacks truthy
numeric readings or sees a difference in the inert band between 20 and 100. -/
def tempRuleMisses (rs : List SensorDataPoint) : Bool :=
  match findInletTemp rs, findOutletTemp rs with
  | some i, some o =>
    match truthyNum i.value, truthyNum o.value with
    | some a, some b => decide (a - b ≤ 100) && decide (20 ≤ a - b)
    | _, _ => true
  | _, _ => true

/-- Claim C8's premise "no earlier cascade rule matches". -/
def noCascadeRuleMatches (rs : List SensorDataPoint) : Bool :=
  statusRuleMisses rs && tempRuleMisses rs

/-- The single identification predicate as claim C4 states it: true exactly
when the type identifier equals STEAM_TRAP3, or the type identifier or the
metadata type name contains "steamtrap" or "steam" case-insensitively. -/
def specIsMonitoredDevice (typeId typeName : Option String) : Bool :=
  typeId == some "STEAM_TRAP3" ||
  optLowerIncludes typeId "steamtrap" ||
  optLowerIncludes typeId "steam" ||
  optLowerIncludes typeName "steamtrap" ||
  optLowerIncludes typeName "steam"

theorem mem_statusMapping_mk (p : String × StatusInfo) (hp : p ∈ statusMapping) :
    ((mkTrapStatus p.1 p.2).status, (mkTrapStatus p.1 p.2).statusCode) ∈ statusPairs := by
  simp only [statusMapping, List.mem_cons, List.not_mem_nil, or_false] at hp
  rcases hp with h | h | h | h | h <;> subst h <;> decide

theorem trapStatusFromTemps_mem (rs : List SensorDataPoint) :
    ((trapStatusFromTemps rs).status, (trapStatusFromTemps rs).statusCode) ∈ statusPairs := by
  unfold trapStatusFromTemps
  split
  · split
    · dsimp only
      split_ifs <;> decide
    · decide
  · decide

theorem getTrapStatus_mem (rs : List SensorDataPoint) :
    ((getTrapStatus rs).status, (getTrapStatus rs).statusCode) ∈ statusPairs := by
  unfold getTrapStatus
  split
  · split_ifs
    · split
      · exact mem_statusMapping_mk _ (List.mem_of_find?_eq_some ‹_›)
      · split
        · exact mem_statusMapping_mk _ (List.mem_of_find?_eq_some ‹_›)
        · exact trapStatusFromTemps_mem rs
    · exact trapStatusFromTemps_mem rs
  · exact trapStatusFromTemps_mem rs

theorem getTrapStatus_code_cases (rs : List SensorDataPoint) :
    (getTrapStatus rs).statusCode = 1 ∨ (getTrapStatus rs).statusCode = 3 ∨
    (getTrapStatus rs).statusCode = 5 ∨ (getTrapStatus rs).statusCode = 6 ∨
    (getTrapStatus rs).statusCode = 9 := by
  have h := getTrapStatus_mem rs
  simp only [statusPairs, List.mem_cons, List.not_mem_nil, or_false, Prod.mk.injEq] at h
  rcases h with ⟨_, h⟩ | ⟨_, h⟩ | ⟨_, h⟩ | ⟨_, h⟩ | ⟨_, h⟩ <;> simp [h]

theorem getTrapStatus_heavyLeak_iff (rs : List SensorDataPoint) :
    (getTrapStatus rs).status = "Heavy Leak" ↔ (getTrapStatus rs).statusCode = 9 := by
  have h := getTrapStatus_mem rs
  simp only [statusPairs, List.mem_cons, List.not_mem_nil, or_false, Prod.mk.injEq] at h
  rcases h with ⟨h1, h2⟩ | ⟨h1, h2⟩ | ⟨h1, h2⟩ | ⟨h1, h2⟩ | ⟨h1, h2⟩ <;> simp [h1, h2]

theorem getTrapStatus_choking_iff (rs : List SensorDataPoint) :
    (getTrapStatus rs).status = "Choking" ↔ (getTrapStatus rs).statusCode = 6 := by
  have h := getTrapStatus_mem rs
  simp only [statusPairs, List.mem_cons, List.not_mem_nil, or_false, Prod.mk.injEq] at h
  rcases h with ⟨h1, h2⟩ | ⟨h1, h2⟩ | ⟨h1, h2⟩ | ⟨h1, h2⟩ | ⟨h1, h2⟩ <;> simp [h1, h2]

theorem statusCodeTier_normal_iff (c : Int) : statusCodeTier c = Tier.normal ↔ c = 1 := by
  unfold statusCodeTier
  split_ifs <;> simp_all

theorem statusCodeTier_critical_iff (c : Int) :
    statusCodeTier c = Tier.critical ↔ c = 6 ∨ c = 9 := by
  unfold statusCodeTier
  split_ifs <;> simp_all
  omega

theorem statusCodeTier_ne_offline (c : Int) : statusCodeTier c ≠ Tier.offline := by
  unfold statusCodeTier
  split_ifs <;> simp_all

theorem statusCodeTier_warning_iff (c : Int)
    (hc : c = 1 ∨ c = 3 ∨ c = 5 ∨ c = 6 ∨ c = 9) :
    statusCodeTier c = Tier.warning ↔ c = 3 ∨ c = 5 := by
  unfold statusCodeTier
  split_ifs <;> simp_all

theorem countTier_partition (rows : List DeviceRowData) :
    countTier Tier.normal rows + countTier Tier.warning rows +
    countTier Tier.critical rows + countTier Tier.offline rows = rows.length := by
  induction rows with
  | nil => rfl
  | cons r t ih =>
    simp only [countTier, List.countP_cons, List.length_cons] at ih ⊢
    rcases h : rowStatusTier r <;> simp [h] <;> omega

theorem rowTempDiff_eq_amended (row : DeviceRowData) :
    rowTempDiff row = if amendedQualifies row then some (amendedRowDiff row) else none := by
  unfold rowTempDiff amendedQualifies amendedRowDiff
  rcases hl : row.sensorData with _ | ⟨d, tl⟩
  · simp [findInletTemp]
  · simp only [hl, List.length_cons, Nat.succ_pos, if_pos]
    rcases h1 : findInletTemp (d :: tl) with _ | i <;>
      rcases h2 : findOutletTemp (d :: tl) with _ | o
    · simp
    · simp
    · simp
    · rcases h3 : truthyNum i.value with _ | a <;>
        rcases h4 : truthyNum o.value with _ | b <;> simp [h3, h4]

theorem filterMap_rowTempDiff (rows : List DeviceRowData) :
    rows.filterMap rowTempDiff = (rows.filter amendedQualifies).map amendedRowDiff := by
  induction rows with
  | nil => rfl
  | cons r t ih =>
    by_cases h : amendedQualifies r <;>
      simp [List.filterMap_cons, List.filter_cons, rowTempDiff_eq_amended r, h, ih]

theorem find?_devID_self (l : List DeviceDetail) (a : DeviceDetail)
    (hnd : (l.map DeviceDetail.devID).Nodup) (ha : a ∈ l) :
    (l.find? fun d => d.devID == a.devID) = some a := by
  induction l with
  | nil => cases ha
  | cons b t ih =>
    simp only [List.map_cons, List.nodup_cons] at hnd
    rcases List.mem_cons.mp ha with rfl | hat
    · simp [List.find?_cons]
    · have hne : (b.devID == a.devID) = false := by
        rcases eq_or_ne b.devID a.devID with he | hne
        · exact absurd (he ▸ List.mem_map_of_mem DeviceDetail.devID hat) hnd.1
        · simp [hne]
      simp [List.find?_cons, hne, ih hnd.2 hat]

theorem mem_loadDevicesFinal (deviceDetails : List DeviceDetail)
    (getMeta : String → Option DeviceMetadata) (dev : DeviceDetail)
    (hnd : (deviceDetails.map DeviceDetail.devID).Nodup) :
    dev ∈ loadDevicesFinal deviceDetails getMeta ↔
      dev ∈ deviceDetails ∧ isSteamTrapDevice dev = true ∧
      ∃ m, getMeta dev.devID = some m ∧ fineSteamTrapFilter m = true := by
  have hnd2 : ((deviceDetails.filter isSteamTrapDevice).map DeviceDetail.devID).Nodup :=
    hnd.sublist (List.Sublist.map _ (List.filter_sublist _))
  unfold loadDevicesFinal
  constructor
  · intro h
    rcases List.mem_filterMap.mp h with ⟨a, ha, hfa⟩
    rcases hm : getMeta a.devID with _ | m
    · rw [hm] at hfa
      cases hfa
    · rw [hm] at hfa
      dsimp only at hfa
      by_cases hf : fineSteamTrapFilter m
      · rw [if_pos hf] at hfa
        have hda : dev = a := by
          have := find?_devID_self _ a hnd2 ha
          rw [this] at hfa
          exact (Option.some.injEq _ _ ▸ hfa.symm)
        subst hda
        have hmem := List.mem_filter.mp ha
        exact ⟨hmem.1, hmem.2, m, hm, by simpa using hf⟩
      · rw [if_neg hf] at hfa
        cases hfa
  · rintro ⟨h1, h2, m, hm, hf⟩
    apply List.mem_filterMap.mpr
    have hdev : dev ∈ deviceDetails.filter isSteamTrapDevice :=
      List.mem_filter.mpr ⟨h1, h2⟩
    refine ⟨dev, hdev, ?_⟩
    rw [hm]
    dsimp only
    rw [if_pos (by simpa using hf), find?_devID_self _ dev hnd2 hdev]

theorem filterMatchesRow_iff (t : Tier) (r : DeviceRowData) :
    filterMatchesRow (tierName t) (some r) = true ↔ rowStatusTier r = t := by
  unfold filterMatchesRow rowStatusTier
  rcases hl : r.sensorData with _ | ⟨d, tl⟩
  · cases t <;> simp [hl, tierName]
  · have hc := getTrapStatus_code_cases (d :: tl)
    cases t
    · simp [hl, tierName, statusCodeTier_normal_iff]
    · simp [hl, tierName, statusCodeTier_warning_iff _ hc]
    · simp [hl, tierName, statusCodeTier_critical_iff]
    · simp [hl, tierName, statusCodeTier_ne_offline]

theorem trapStatusFromTemps_default (rs : List SensorDataPoint)
    (h : tempRuleMisses rs = true) : trapStatusFromTemps rs = defaultTrapStatus := by
  unfold tempRuleMisses at h
  unfold trapStatusFromTemps
  rcases h1 : findInletTemp rs with _ | i <;> rcases h2 : findOutletTemp rs with _ | o
  · rfl
  · rfl
  · rfl
  · rw [h1, h2] at h
    dsimp only at h ⊢
    rcases h3 : truthyNum i.value with _ | a <;> rcases h4 : truthyNum o.value with _ | b
    · rfl
    · rfl
    · rfl
    · rw [h3, h4] at h
      dsimp only at h
      simp only [Bool.and_eq_true, decide_eq_true_eq] at h
      dsimp only
      rw [if_neg (by omega), if_neg (by omega)]

theorem getTrapStatus_default_of_noCascade (rs : List SensorDataPoint)
    (h : noCascadeRuleMatches rs = true) : getTrapStatus rs = defaultTrapStatus := by
  unfold noCascadeRuleMatches at h
  rw [Bool.and_eq_true] at h
  obtain ⟨hs, ht⟩ := h
  unfold getTrapStatus
  unfold statusRuleMisses at hs
  rcases hf : findStatusSensor rs with _ | s
  · exact trapStatusFromTemps_default rs ht
  · rw [hf] at hs
    dsimp only at hs
    dsimp only
    by_cases hnull : s.value = JsVal.null
    · rw [if_neg (fun hcon => hcon hnull)]
      exact trapStatusFromTemps_default rs ht
    · have hbeq : (s.value == JsVal.null) = false := by
        simp [hnull]
      rw [hbeq, Bool.false_or, Bool.and_eq_true, Option.isNone_iff_eq_none,
        Option.isNone_iff_eq_none] at hs
      rw [if_pos hnull, hs.1]
      dsimp only
      rw [hs.2]
      exact trapStatusFromTemps_default rs ht

theorem rowEnergyLoss_eq (row : DeviceRowData) :
    rowEnergyLoss row =
      if rowStatusTier row = Tier.critical then
        (if (getTrapStatus row.sensorData).status = "Heavy Leak" then 15 else 10)
      else 0 := by
  unfold rowEnergyLoss rowStatusTier
  rcases hl : row.sensorData with _ | ⟨d, tl⟩
  · simp
  · have hh := getTrapStatus_heavyLeak_iff (d :: tl)
    rcases getTrapStatus_code_cases (d :: tl) with h | h | h | h | h <;>
      simp [hl, h, statusCodeTier, hh]

theorem calculateKPIs_energy (devices : List DeviceDetail) (rows : List DeviceRowData) :
    (calculateKPIs devices rows).totalEnergyLoss =
      (rows.map fun row =>
        if rowStatusTier row = Tier.critical then
          (if (getTrapStatus row.sensorData).status = "Heavy Leak" then (15 : Int) else 10)
        else 0).sum := by
  show (rows.map rowEnergyLoss).sum = _
  congr 1
  exact List.map_congr_left fun r _ => rowEnergyLoss_eq r

/-- Claim C5 (confirmed): when the first status/condition/trap-labelled
reading carries a value whose integer parse equals a known code, the
classifier returns the health state of that code per the table
Normal/1/normal, Heavy Flooding/3/warning, Valve Closed/5/warning,
Choking/6/critical, Heavy Leak/9/critical; instantiated at `[{status, 1}]`
this yields Normal, code 1, tier normal. -/
theorem classify_code_rule_matches_table (rs : List SensorDataPoint)
    (r : SensorDataPoint) (name : String) (c : Int) (t : Tier)
    (hfind : findStatusSensor rs = some r)
    (hparse : valParseInt r.value = some c)
    (htable : (name, c, t) ∈ healthTable) :
    (getTrapStatus rs).status = name ∧ (getTrapStatus rs).statusCode = c ∧
      statusCodeTier c = t := by
  have hnn : r.value ≠ JsVal.null := by
    intro h
    rw [h] at hparse
    cases hparse
  unfold getTrapStatus
  rw [hfind]
  dsimp only
  rw [if_pos hnn]
  simp only [hparse]
  simp only [healthTable, List.mem_cons, List.not_mem_nil, or_false, Prod.mk.injEq] at htable
  rcases htable with ⟨rfl, rfl, rfl⟩ | ⟨rfl, rfl, rfl⟩ | ⟨rfl, rfl, rfl⟩ |
    ⟨rfl, rfl, rfl⟩ | ⟨rfl, rfl, rfl⟩
  · rw [(by decide : List.find? (fun (p : String × StatusInfo) => some (1 : Int) == some p.2.code)
        statusMapping = some ("Normal", normalInfo))]
    exact ⟨rfl, rfl, rfl⟩
  · rw [(by decide : List.find? (fun (p : String × StatusInfo) => some (3 : Int) == some p.2.code)
        statusMapping = some ("Heavy Flooding", heavyFloodingInfo))]
    exact ⟨rfl, rfl, rfl⟩
  · rw [(by decide : List.find? (fun (p : String × StatusInfo) => some (5 : Int) == some p.2.code)
        statusMapping = some ("Valve Closed", valveClosedInfo))]
    exact ⟨rfl, rfl, rfl⟩
  · rw [(by decide : List.find? (fun (p : String × StatusInfo) => some (6 : Int) == some p.2.code)
        statusMapping = some ("Choking", chokingInfo))]
    exact ⟨rfl, rfl, rfl⟩
  · rw [(by decide : List.find? (fun (p : String × StatusInfo) => some (9 : Int) == some p.2.code)
        statusMapping = some ("Heavy Leak", heavyLeakInfo))]
    exact ⟨rfl, rfl, rfl⟩

/-- Witness for C5: the reading set `[{status, 1}]` classifies as Normal,
code 1, tier normal. -/
theorem classify_code_rule_witness :
    (getTrapStatus [⟨"status", JsVal.num 1⟩]).status = "Normal" ∧
    (getTrapStatus [⟨"status", JsVal.num 1⟩]).statusCode = 1 ∧
    statusCodeTier 1 = Tier.normal :=
  classify_code_rule_matches_table [⟨"status", JsVal.num 1⟩] ⟨"status", JsVal.num 1⟩
    "Normal" 1 Tier.normal (by decide) (by decide) (by decide)

/-- Claim C1 counterexample: the reading set
`[{inlet temp, 10}, {outlet temp, 0}]` has no status/condition/trap-labelled
reading and contains numeric-valued inlet- and outlet-temperature readings
with difference 10 < 20, so the claim requires Heavy Flooding; the classifier
returns Normal instead, because the 0-valued outlet reading is falsy and the
temperature heuristic is skipped. -/
theorem classify_temp_rule_zero_counterexample :
    (∀ d ∈ ([⟨"inlet temp", JsVal.num 10⟩, ⟨"outlet temp", JsVal.num 0⟩] :
      List SensorDataPoint), isStatusSensor d = false) ∧
    (([⟨"inlet temp", JsVal.num 10⟩, ⟨"outlet temp", JsVal.num 0⟩] :
      List SensorDataPoint).any (fun d => isInletTempSensor d && d.value.isNum) = true) ∧
    (([⟨"inlet temp", JsVal.num 10⟩, ⟨"outlet temp", JsVal.num 0⟩] :
      List SensorDataPoint).any (fun d => isOutletTempSensor d && d.value.isNum) = true) ∧
    ((10 : Int) - 0 < 20) ∧
    (getTrapStatus [⟨"inlet temp", JsVal.num 10⟩, ⟨"outlet temp", JsVal.num 0⟩]).status
      = "Normal" ∧
    (getTrapStatus [⟨"inlet temp", JsVal.num 10⟩, ⟨"outlet temp", JsVal.num 0⟩]).status
      ≠ "Heavy Flooding" := by
  decide

/-- Claim C1 (corrected): for a reading list with no status/condition/trap
labelled reading whose first inlet-temperature reading and first
outlet-temperature reading both carry nonzero numeric values, the classifier
returns Normal when inlet minus outlet exceeds 100 and Heavy Flooding when it
is below 20. -/
theorem classify_temp_rule_amended (rs : List SensorDataPoint)
    (i o : SensorDataPoint) (vi vo : Int)
    (hns : ∀ d ∈ rs, isStatusSensor d = false)
    (hi : findInletTemp rs = some i) (hvi : i.value = JsVal.num vi) (hvi0 : vi ≠ 0)
    (ho : findOutletTemp rs = some o) (hvo : o.value = JsVal.num vo) (hvo0 : vo ≠ 0) :
    (vi - vo > 100 → getTrapStatus rs = mkTrapStatus "Normal" normalInfo) ∧
    (vi - vo < 20 → getTrapStatus rs = mkTrapStatus "Heavy Flooding" heavyFloodingInfo) := by
  have hfs : findStatusSensor rs = none := by
    unfold findStatusSensor
    exact List.find?_eq_none.mpr (by simpa using hns)
  unfold getTrapStatus
  rw [hfs]
  unfold trapStatusFromTemps
  rw [hi, ho]
  dsimp only
  rw [hvi, hvo]
  simp only [truthyNum]
  rw [if_neg hvi0, if_neg hvo0]
  dsimp only
  constructor
  · intro h
    rw [if_pos h]
  · intro h
    rw [if_neg (by omega), if_pos h]

/-- Witness for C1: the reading set `[{inlet temp, 100}, {outlet temp, 90}]`
classifies as Heavy Flooding (difference 10 < 20). -/
theorem classify_temp_rule_amended_witness :
    getTrapStatus [⟨"inlet temp", JsVal.num 100⟩, ⟨"outlet temp", JsVal.num 90⟩]
      = mkTrapStatus "Heavy Flooding" heavyFloodingInfo :=
  (classify_temp_rule_amended
    [⟨"inlet temp", JsVal.num 100⟩, ⟨"outlet temp", JsVal.num 90⟩]
    ⟨"inlet temp", JsVal.num 100⟩ ⟨"outlet temp", JsVal.num 90⟩ 100 90
    (by decide) (by decide) (by decide) (by decide)
    (by decide) (by decide) (by decide)).2 (by decide)

/-- Claim C8 (confirmed): the classifier is total — every reading list
yields one of the five table health states — and when no cascade rule matches
it falls through to the Normal default; in particular the empty reading list
classifies as the default Normal, code 1. -/
theorem classify_total_and_default (rs : List SensorDataPoint) :
    ((getTrapStatus rs).status, (getTrapStatus rs).statusCode) ∈ statusPairs ∧
    (noCascadeRuleMatches rs = true → getTrapStatus rs = defaultTrapStatus) ∧
    getTrapStatus [] = defaultTrapStatus ∧
    defaultTrapStatus.status = "Normal" ∧ defaultTrapStatus.statusCode = 1 :=
  ⟨getTrapStatus_mem rs, getTrapStatus_default_of_noCascade rs, by decide,
    by decide, by decide⟩

/-- Witness for C8: the empty reading list matches no cascade rule and
classifies as the Normal default. -/
theorem classify_total_and_default_witness :
    noCascadeRuleMatches [] = true ∧ getTrapStatus [] = defaultTrapStatus :=
  ⟨by decide, (classify_total_and_default []).2.1 (by decide)⟩

/-- Claim C9 (confirmed): the classifier is deterministic — two calls on
identical reading lists return identical records, in particular identical
status names, status codes, and tiers. -/
theorem classify_deterministic (rs1 rs2 : List SensorDataPoint) (h : rs1 = rs2) :
    getTrapStatus rs1 = getTrapStatus rs2 ∧
    (getTrapStatus rs1).status = (getTrapStatus rs2).status ∧
    (getTrapStatus rs1).statusCode = (getTrapStatus rs2).statusCode ∧
    statusCodeTier (getTrapStatus rs1).statusCode
      = statusCodeTier (getTrapStatus rs2).statusCode := by
  subst h
  exact ⟨rfl, rfl, rfl, rfl⟩

/-- Witness for C9: determinism instantiated at the reading set
`[{status, 1}]`. -/
theorem classify_deterministic_witness :
    getTrapStatus [⟨"status", JsVal.num 1⟩] = getTrapStatus [⟨"status", JsVal.num 1⟩] :=
  (classify_deterministic [⟨"status", JsVal.num 1⟩] [⟨"status", JsVal.num 1⟩] rfl).1

/-- Claim C10 (confirmed): every classification carries a name/code pair from
the fixed five-entry table, so its code lies in 1, 3, 5, 6, 9; consequently
the aggregator's default switch branch is unreachable for classified
snapshots — the switch buckets a classification as warning exactly on codes 3
and 5, never through the default branch. -/
theorem classification_codes_closed (rs : List SensorDataPoint) :
    ((getTrapStatus rs).status, (getTrapStatus rs).statusCode) ∈ statusPairs ∧
    ((getTrapStatus rs).statusCode = 1 ∨ (getTrapStatus rs).statusCode = 3 ∨
     (getTrapStatus rs).statusCode = 5 ∨ (getTrapStatus rs).statusCode = 6 ∨
     (getTrapStatus rs).statusCode = 9) ∧
    (statusCodeTier (getTrapStatus rs).statusCode = Tier.warning ↔
      (getTrapStatus rs).statusCode = 3 ∨ (getTrapStatus rs).statusCode = 5) :=
  ⟨getTrapStatus_mem rs, getTrapStatus_code_cases rs,
    statusCodeTier_warning_iff _ (getTrapStatus_code_cases rs)⟩

/-- Claim C2 (confirmed): the per-device tier bucketing of the aggregator and
of the filter engine agree — a device with a snapshot row is returned by the
filter under a tier exactly when the aggregator buckets that row into the same
tier (rows with a nonempty reading list go to their classified tier, rows with
an empty reading list exactly to offline) — and the aggregator's per-tier
counter counts exactly the rows bucketed into that tier. -/
theorem aggregator_filter_agree (t : Tier) (devices : List DeviceDetail)
    (deviceRows : String → Option DeviceRowData) (rows : List DeviceRowData)
    (d : DeviceDetail) (r : DeviceRowData)
    (hrow : deviceRows d.devID = some r) (hd : d ∈ devices) :
    (d ∈ getFilteredDevices (tierName t) devices deviceRows ↔ rowStatusTier r = t) ∧
    tierCount t (calculateKPIs devices rows).statusCounts
      = (rows.filter fun row => decide (rowStatusTier row = t)).length := by
  constructor
  · have hall : (tierName t == "all") = false := by cases t <;> rfl
    unfold getFilteredDevices
    rw [hall, if_neg Bool.false_ne_true, List.mem_filter, hrow]
    simp [hd, filterMatchesRow_iff t r]
  · cases t <;> simp [calculateKPIs, tierCount, countTier, List.countP_eq_length_filter]

/-- Witness for C2: a device whose snapshot reads `[{status, 9}]` is bucketed
critical by the aggregator and returned by the filter under tier critical. -/
theorem aggregator_filter_agree_witness :
    (⟨"d1", none⟩ : DeviceDetail) ∈ getFilteredDevices (tierName Tier.critical)
      [⟨"d1", none⟩] (fun _ => some ⟨[⟨"status", JsVal.num 9⟩], none, true⟩) :=
  ((aggregator_filter_agree Tier.critical [⟨"d1", none⟩]
    (fun _ => some ⟨[⟨"status", JsVal.num 9⟩], none, true⟩)
    [⟨[⟨"status", JsVal.num 9⟩], none, true⟩]
    ⟨"d1", none⟩ ⟨[⟨"status", JsVal.num 9⟩], none, true⟩
    rfl (by decide)).1).mpr (by decide)

/-- Claim C3 (confirmed): when the snapshot map covers exactly the current
device list (one row per device), the four tier counts of an aggregation call
sum to totalDevices — each row is bucketed into exactly one tier. -/
theorem kpi_counts_partition (devices : List DeviceDetail) (rows : List DeviceRowData)
    (hcover : rows.length = devices.length) :
    (calculateKPIs devices rows).statusCounts.normal
      + (calculateKPIs devices rows).statusCounts.warning
      + (calculateKPIs devices rows).statusCounts.critical
      + (calculateKPIs devices rows).statusCounts.offline
      = (calculateKPIs devices rows).totalDevices := by
  show countTier Tier.normal rows + countTier Tier.warning rows +
      countTier Tier.critical rows + countTier Tier.offline rows = devices.length
  rw [countTier_partition rows, hcover]

/-- Witness for C3: the tier counts sum to the device total on a one-device
fleet with one snapshot row. -/
theorem kpi_counts_partition_witness :
    (calculateKPIs [⟨"d1", none⟩] [⟨[⟨"status", JsVal.num 9⟩], none, true⟩]).statusCounts.normal
      + (calculateKPIs [⟨"d1", none⟩] [⟨[⟨"status", JsVal.num 9⟩], none, true⟩]).statusCounts.warning
      + (calculateKPIs [⟨"d1", none⟩] [⟨[⟨"status", JsVal.num 9⟩], none, true⟩]).statusCounts.critical
      + (calculateKPIs [⟨"d1", none⟩] [⟨[⟨"status", JsVal.num 9⟩], none, true⟩]).statusCounts.offline
      = (calculateKPIs [⟨"d1", none⟩] [⟨[⟨"status", JsVal.num 9⟩], none, true⟩]).totalDevices :=
  kpi_counts_partition [⟨"d1", none⟩] [⟨[⟨"status", JsVal.num 9⟩], none, true⟩] (by decide)

/-- Claim C6 counterexample: a snapshot containing a numeric inlet reading
(10) and a numeric outlet reading (0) qualifies under the claim's wording, so
the claimed mean over the one-device fleet is 10; the aggregator computes 0,
because the 0-valued outlet reading is falsy and the device is excluded from
sum and divisor. -/
theorem avg_temp_differential_counterexample :
    hasNumericInletOutlet
      ⟨[⟨"inlet temp", JsVal.num 10⟩, ⟨"outlet temp", JsVal.num 0⟩], none, true⟩ = true ∧
    claimAvgTempDiff
      [⟨[⟨"inlet temp", JsVal.num 10⟩, ⟨"outlet temp", JsVal.num 0⟩], none, true⟩] = 10 ∧
    (calculateKPIs [⟨"d1", none⟩]
      [⟨[⟨"inlet temp", JsVal.num 10⟩, ⟨"outlet temp", JsVal.num 0⟩], none, true⟩]).avgTempDifferential = 0 ∧
    claimAvgTempDiff
      [⟨[⟨"inlet temp", JsVal.num 10⟩, ⟨"outlet temp", JsVal.num 0⟩], none, true⟩] ≠
      (calculateKPIs [⟨"d1", none⟩]
        [⟨[⟨"inlet temp", JsVal.num 10⟩, ⟨"outlet temp", JsVal.num 0⟩], none, true⟩]).avgTempDifferential := by
  have hclaim : claimAvgTempDiff
      [⟨[⟨"inlet temp", JsVal.num 10⟩, ⟨"outlet temp", JsVal.num 0⟩], none, true⟩] = 10 := by
    have h1 : List.filter hasNumericInletOutlet
        [(⟨[⟨"inlet temp", JsVal.num 10⟩, ⟨"outlet temp", JsVal.num 0⟩], none, true⟩ : DeviceRowData)]
        = [⟨[⟨"inlet temp", JsVal.num 10⟩, ⟨"outlet temp", JsVal.num 0⟩], none, true⟩] := by
      decide
    have h2 : claimRowDiff
        (⟨[⟨"inlet temp", JsVal.num 10⟩, ⟨"outlet temp", JsVal.num 0⟩], none, true⟩ : DeviceRowData)
        = 10 := by
      decide
    simp only [claimAvgTempDiff, h1, List.map_cons, List.map_nil, h2]
    norm_num
  have hcode : (calculateKPIs [⟨"d1", none⟩]
      [⟨[⟨"inlet temp", JsVal.num 10⟩, ⟨"outlet temp", JsVal.num 0⟩], none, true⟩]).avgTempDifferential
      = 0 := by
    decide
  refine ⟨by decide, hclaim, hcode, ?_⟩
  rw [hclaim, hcode]
  norm_num

/-- Claim C6 (corrected): avgTempDifferential equals the arithmetic mean of
inlet minus outlet over exactly the rows whose first inlet-temperature and
first outlet-temperature readings both carry truthy (nonzero) numeric values;
every other row — including one with an empty reading list — contributes
nothing to the sum and is excluded from the divisor, and the result is 0 when
no row qualifies. -/
theorem avg_temp_differential_amended (devices : List DeviceDetail)
    (rows : List DeviceRowData) :
    (calculateKPIs devices rows).avgTempDifferential = amendedAvgTempDiff rows := by
  show (if (rows.filterMap rowTempDiff).length > 0
      then (((rows.filterMap rowTempDiff).sum : ℚ) / ((rows.filterMap rowTempDiff).length : ℚ))
      else 0) = _
  rw [filterMap_rowTempDiff]
  unfold amendedAvgTempDiff
  rcases hq : rows.filter amendedQualifies with _ | ⟨a, l⟩ <;>
    simp [List.length_map]

/-- Claim C7 (confirmed): estimatedEnergyLoss is the sum over
critical-classified rows of 15 units for Heavy Leak and 10 units for Choking
(the only other critical state); in particular a device reading
`[{status, 9}]` classifies as Heavy Leak, code 9, tier critical, and
contributes exactly 15 units. -/
theorem estimated_energy_loss (devices : List DeviceDetail) (rows : List DeviceRowData) :
    ((calculateKPIs devices rows).totalEnergyLoss =
      (rows.map fun row =>
        if rowStatusTier row = Tier.critical then
          (if (getTrapStatus row.sensorData).status = "Heavy Leak" then (15 : Int) else 10)
        else 0).sum) ∧
    (getTrapStatus [⟨"status", JsVal.num 9⟩]).status = "Heavy Leak" ∧
    (getTrapStatus [⟨"status", JsVal.num 9⟩]).statusCode = 9 ∧
    rowStatusTier ⟨[⟨"status", JsVal.num 9⟩], none, true⟩ = Tier.critical ∧
    (calculateKPIs [⟨"d1", none⟩]
      [⟨[⟨"status", JsVal.num 9⟩], none, true⟩]).totalEnergyLoss = 15 :=
  ⟨calculateKPIs_energy devices rows, by decide, by decide, by decide, by decide⟩

/-- Claim C4 counterexample: for a device whose type identifier is "steam_x"
and whose metadata type name is "Boiler", the claimed single predicate is
true (the type id contains "steam"), yet the implemented fine filter is a
different predicate that rejects the metadata, and the device is dropped from
the final working set. -/
theorem identifier_predicate_counterexample :
    specIsMonitoredDevice (some "steam_x") (some "Boiler") = true ∧
    fineSteamTrapFilter ⟨"d1", some "steam_x", some "Boiler"⟩ = false ∧
    isSteamTrapDevice ⟨"d1", some "steam_x"⟩ = true ∧
    loadDevicesFinal [⟨"d1", some "steam_x"⟩]
      (fun i => if i == "d1" then some ⟨"d1", some "steam_x", some "Boiler"⟩ else none)
      = [] := by
  decide

/-- Claim C4 (corrected): the coarse filter equals the claimed predicate
restricted to the type identifier alone; the fine filter applied after
metadata arrives is the different predicate implemented in the source; and,
with unique device identifiers, the final working set holds exactly the
devices that pass the coarse filter, have metadata, and whose metadata passes
the fine filter — so a device surviving the coarse filter but failing the
fine filter (or lacking metadata) is dropped. -/
theorem identifier_pipeline_amended (deviceDetails : List DeviceDetail)
    (getMeta : String → Option DeviceMetadata) (dev : DeviceDetail)
    (hnd : (deviceDetails.map DeviceDetail.devID).Nodup) :
    isSteamTrapDevice dev = specIsMonitoredDevice dev.devTypeID none ∧
    (dev ∈ loadDevicesFinal deviceDetails getMeta ↔
      dev ∈ deviceDetails ∧ isSteamTrapDevice dev = true ∧
      ∃ m, getMeta dev.devID = some m ∧ fineSteamTrapFilter m = true) := by
  constructor
  · unfold isSteamTrapDevice specIsMonitoredDevice optLowerIncludes
    cases dev.devTypeID <;> simp
  · exact mem_loadDevicesFinal deviceDetails getMeta dev hnd

/-- Witness for C4: a device typed "steam_x" whose metadata names it a
"Steam Trap Unit" survives both filters and stays in the working set. -/
theorem identifier_pipeline_amended_witness :
    (⟨"d1", some "steam_x"⟩ : DeviceDetail) ∈ loadDevicesFinal [⟨"d1", some "steam_x"⟩]
      (fun i => if i == "d1" then some ⟨"d1", some "steam_x", some "Steam Trap Unit"⟩ else none) :=
  ((identifier_pipeline_amended [⟨"d1", some "steam_x"⟩]
    (fun i => if i == "d1" then some ⟨"d1", some "steam_x", some "Steam Trap Unit"⟩ else none)
    ⟨"d1", some "steam_x"⟩ (by decide)).2).mpr
    ⟨by decide, by decide, ⟨"d1", some "steam_x", some "Steam Trap Unit"⟩, by decide, by decide⟩
